import Mathlib

/-!
Verification of the EcoWatt AI daily energy-balance core (src/app.py).

The Python source is shallowly embedded over ℚ (the source works with
Python/NumPy floats; all the claims under study are about exact
arithmetic identities, orderings, and control flow, so exact rational
arithmetic is the faithful idealisation the spec itself appeals to with
"in real arithmetic").

The battery loop (src/app.py lines 430-462) uses
`charge_eff = discharge_eff = battery_round_trip_eff ** 0.5`.
Square roots are irrational in general, so the embedding is parametrised
by the value `effSqrt` of that expression, related to the configured
round-trip efficiency by `effSqrt * effSqrt = eff ∧ 0 ≤ effSqrt` in the
theorems that speak about the efficiency range.
-/

namespace EcoWatt

/-- One day's output of the battery loop, mirroring both the values the
source appends to its lists (`soc_list`, `grid_import_list`,
`grid_export_list`, `served_by_renewables_list`) and the loop-local
quantities the claims refer to. -/
structure DayOut where
  gen : ℚ
  direct_served : ℚ
  residual_gen : ℚ
  remaining_load : ℚ
  charge_possible : ℚ
  discharge_possible : ℚ
  served_from_batt : ℚ
  soc : ℚ
  grid_import : ℚ
  grid_export : ℚ
  served_by_renewables : ℚ
  deriving DecidableEq, Repr

/-- One iteration of the `for gen in daily_gen_series` loop
(src/app.py lines 439-462), for incoming state of charge `soc`.
`effSqrt` stands for `battery_round_trip_eff ** 0.5`, used by the source
as both `charge_eff` and `discharge_eff`.  Note ℚ division is total
(`x / 0 = 0`); the division sites are additionally tracked by
`batteryStepDivisions` below so that division-by-zero claims can be
stated honestly. -/
def batteryStep (battery_capacity_kwh daily_load_kwh effSqrt soc gen : ℚ) : DayOut :=
  let load := daily_load_kwh
  let direct_served := min gen load
  let residual_gen := gen - direct_served
  let remaining_load := load - direct_served
  let charge_possible := min (residual_gen * effSqrt) (battery_capacity_kwh - soc)
  let soc1 := soc + charge_possible
  let discharge_possible := min soc1 (remaining_load / effSqrt)
  let soc2 := soc1 - discharge_possible
  let served_from_batt := discharge_possible * effSqrt
  let grid_import := max 0 (remaining_load - served_from_batt)
  let grid_export := max 0 (residual_gen - charge_possible / effSqrt)
  { gen := gen
    direct_served := direct_served
    residual_gen := residual_gen
    remaining_load := remaining_load
    charge_possible := charge_possible
    discharge_possible := discharge_possible
    served_from_batt := served_from_batt
    soc := soc2
    grid_import := grid_import
    grid_export := grid_export
    served_by_renewables := direct_served + served_from_batt }

/-- The (numerator, divisor) pairs of the two division expressions the
loop body executes unconditionally on every iteration:
`remaining_load / discharge_eff` (line 451) and
`charge_possible / charge_eff` (line 457).  There is no branch guarding
either division. -/
def batteryStepDivisions (battery_capacity_kwh daily_load_kwh effSqrt soc gen : ℚ) :
    List (ℚ × ℚ) :=
  let load := daily_load_kwh
  let direct_served := min gen load
  let residual_gen := gen - direct_served
  let remaining_load := load - direct_served
  let charge_possible := min (residual_gen * effSqrt) (battery_capacity_kwh - soc)
  [(remaining_load, effSqrt), (charge_possible, effSqrt)]

/-- The loop from a given incoming state of charge, emitting one
`DayOut` per generation value, carrying `soc` forward. -/
def simulateFrom (battery_capacity_kwh daily_load_kwh effSqrt : ℚ) :
    ℚ → List ℚ → List DayOut
  | _, [] => []
  | soc, gen :: rest =>
    let d := batteryStep battery_capacity_kwh daily_load_kwh effSqrt soc gen
    d :: simulateFrom battery_capacity_kwh daily_load_kwh effSqrt d.soc rest

/-- Initial state of charge: the source sets `soc = 0.0` (line 430). -/
def socInit : ℚ := 0

/-- The whole battery simulation (lines 430-462): fold over the
generation series starting from `socInit`. -/
def simulate (battery_capacity_kwh daily_load_kwh effSqrt : ℚ) (gens : List ℚ) :
    List DayOut :=
  simulateFrom battery_capacity_kwh daily_load_kwh effSqrt socInit gens

/-- Recommendation tags of the suggestion card (lines 361-372): the
three mutually exclusive texts, abstracted to tags. -/
inductive RecommendationTag where
  | highSolar
  | strongWind
  | hybridStorage
  deriving DecidableEq, Repr

/-- The suggestion-card selector (src/app.py lines 361-372):
`if avg_solar_mj > 250 ... elif avg_wind_max > 6 ... else ...`. -/
def suggestion (avg_solar_mj avg_wind_max : ℚ) : RecommendationTag :=
  if avg_solar_mj > 250 then .highSolar
  else if avg_wind_max > 6 then .strongWind
  else .hybridStorage

/-- Solar potential score (line 348): `min((avg_solar_mj / 300) * 100, 100)`. -/
def solar_score (avg_solar_mj : ℚ) : ℚ := min (avg_solar_mj / 300 * 100) 100

/-- Wind potential score (line 349): `min((avg_wind_max / 12) * 100, 100)`. -/
def wind_score (avg_wind_max : ℚ) : ℚ := min (avg_wind_max / 12 * 100) 100

/-- Composite EcoWatt score (line 350): `(0.6 * solar_score) + (0.4 * wind_score)`. -/
def eco_watt_score (avg_solar_mj avg_wind_max : ℚ) : ℚ :=
  6/10 * solar_score avg_solar_mj + 4/10 * wind_score avg_wind_max

/-- Air density constant (line 163): `1.225` kg/m³. -/
def air_density : ℚ := 1225/1000

/-- Rotor swept area (line 404): `3.1416 * (rotor_diam_m / 2) ** 2`. -/
def rotor_area (rotor_diam_m : ℚ) : ℚ := 31416/10000 * (rotor_diam_m / 2)^2

/-- Wind power before the nameplate cap (line 405):
`0.5 * air_density * rotor_area * cp * avg_wind ** 3 * wind_pr`. -/
def wind_power_raw_w (rotor_diam_m cp avg_wind wind_pr : ℚ) : ℚ :=
  1/2 * air_density * rotor_area rotor_diam_m * cp * avg_wind^3 * wind_pr

/-- Wind power after the cap (line 406): `min(wind_power_w, turbine_kw * 1000)`. -/
def wind_power_w (rotor_diam_m cp avg_wind wind_pr turbine_kw : ℚ) : ℚ :=
  min (wind_power_raw_w rotor_diam_m cp avg_wind wind_pr) (turbine_kw * 1000)

/-- Daily wind energy (line 407): `(wind_power_w * 24) / 1000`. -/
def daily_wind_kwh (rotor_diam_m cp avg_wind wind_pr turbine_kw : ℚ) : ℚ :=
  wind_power_w rotor_diam_m cp avg_wind wind_pr turbine_kw * 24 / 1000

/-- Daily solar energy estimate (lines 394-395):
`solar_area_m2 = system_size_kw * area_per_kw` and
`daily_solar_kwh = avg_solar_kwh_m2 * solar_area_m2 * pr`. -/
def daily_solar_kwh (avg_solar_kwh_m2 system_size_kw area_per_kw pr : ℚ) : ℚ :=
  avg_solar_kwh_m2 * (system_size_kw * area_per_kw) * pr

/-- All (numerator, divisor) pairs of division expressions executed over
the whole battery loop, in execution order, starting from state of
charge `soc`. -/
def simulateDivisionsFrom (battery_capacity_kwh daily_load_kwh effSqrt : ℚ) :
    ℚ → List ℚ → List (ℚ × ℚ)
  | _, [] => []
  | soc, gen :: rest =>
    batteryStepDivisions battery_capacity_kwh daily_load_kwh effSqrt soc gen ++
      simulateDivisionsFrom battery_capacity_kwh daily_load_kwh effSqrt
        (batteryStep battery_capacity_kwh daily_load_kwh effSqrt soc gen).soc rest

/-- Divisions executed by the full simulation (initial charge `socInit`). -/
def simulateDivisions (battery_capacity_kwh daily_load_kwh effSqrt : ℚ) (gens : List ℚ) :
    List (ℚ × ℚ) :=
  simulateDivisionsFrom battery_capacity_kwh daily_load_kwh effSqrt socInit gens

/-! ## Forecast response validation (src/app.py lines 219-240)

The JSON response is modelled structurally: `Option` captures a missing
key (`dict.get` returning `None` / `"time" not in daily`).  Dates are
modelled abstractly as `Nat` (only their count matters to the claims).
Column values are ℚ; the temperature column may hold per-day missing
values (`Option ℚ`), matching the `[None] * len(...)` default. -/

/-- The `daily` block of the provider response. -/
structure DailyBlock where
  time : Option (List Nat)
  shortwave_radiation_sum : Option (List ℚ)
  wind_speed_10m_max : Option (List ℚ)
  temperature_2m_max : Option (List (Option ℚ))
  deriving DecidableEq, Repr

/-- The whole provider response: `data.get("daily")`. -/
structure ApiResponse where
  daily : Option DailyBlock
  deriving DecidableEq, Repr

/-- How a run can fail before producing output.  `missingDaily` is the
explicit `st.error(...); st.stop()` branch for a missing daily block or
missing date array (lines 219-222); `lengthMismatch` is the `ValueError`
the `pd.DataFrame` constructor raises when the column lists have unequal
lengths (lines 224-229), which is not caught and likewise aborts the run
before any derived column is computed. -/
inductive PipelineError where
  | missingDaily
  | lengthMismatch
  deriving DecidableEq, Repr

/-- The raw dataframe columns (lines 224-229). -/
structure ForecastFrame where
  date : List Nat
  solar_mj_m2 : List ℚ
  wind_m_s_max : List ℚ
  temp_max_c : List (Option ℚ)
  deriving DecidableEq, Repr

/-- Building the raw dataframe from the response (lines 219-229):
reject a missing daily block or date array; substitute
`[0] * len(daily["time"])` for absent radiation/wind arrays and
`[None] * len(daily["time"])` for an absent temperature array; fail when
the resulting column lengths disagree (pandas `ValueError`). -/
def buildFrame (resp : ApiResponse) : Except PipelineError ForecastFrame :=
  match resp.daily with
  | none => .error .missingDaily
  | some daily =>
    match daily.time with
    | none => .error .missingDaily
    | some time =>
      let solar := daily.shortwave_radiation_sum.getD (List.replicate time.length 0)
      let wind := daily.wind_speed_10m_max.getD (List.replicate time.length 0)
      let temp := daily.temperature_2m_max.getD (List.replicate time.length none)
      if solar.length = time.length ∧ wind.length = time.length ∧ temp.length = time.length
      then .ok ⟨time, solar, wind, temp⟩
      else .error .lengthMismatch

/-- The dataframe with the derived columns added (lines 236-237):
`solar_kwh_m2 = solar_mj_m2 * 0.2778` and `wind_m_s_avg = wind_m_s_max * 0.6`. -/
structure AnalysisFrame where
  base : ForecastFrame
  solar_kwh_m2 : List ℚ
  wind_m_s_avg : List ℚ
  deriving DecidableEq, Repr

/-- Derived-column computation (lines 236-237). -/
def deriveColumns (f : ForecastFrame) : AnalysisFrame :=
  { base := f
    solar_kwh_m2 := f.solar_mj_m2.map (fun x => x * (2778/10000))
    wind_m_s_avg := f.wind_m_s_max.map (fun x => x * (6/10)) }

/-- The validation-and-derivation pipeline of the analyze handler:
derived columns are only computed after the frame is built, so a failing
build produces no derived output. -/
def analyzeFrame (resp : ApiResponse) : Except PipelineError AnalysisFrame :=
  (buildFrame resp).map deriveColumns

/-! ## NumPy scalar model for the generation-series scaling
(src/app.py lines 424-428)

`solar_scale = (df["solar_kwh_m2"] / avg_solar_kwh_m2).fillna(1.0)` is a
float64 computation: dividing by a zero mean yields NaN (for `0/0`) or a
signed infinity (for `x/0`, `x ≠ 0`); `fillna` replaces only NaN.  The
scalar type below captures exactly those IEEE-754 outcomes of operations
on finite values. -/

/-- A NumPy float64 value arising from operations on finite inputs:
a finite rational, a signed infinity, or NaN. -/
inductive NpVal where
  | num : ℚ → NpVal
  | posInf : NpVal
  | negInf : NpVal
  | nan : NpVal
  deriving DecidableEq, Repr

/-- Float64 division of two finite values: `0/0` is NaN, `x/0` is a
signed infinity for `x ≠ 0`, otherwise exact division. -/
def npDiv (x y : ℚ) : NpVal :=
  if y = 0 then
    if x = 0 then .nan else if 0 < x then .posInf else .negInf
  else .num (x / y)

/-- `Series.fillna(d)`: replaces NaN (and only NaN) by `d`. -/
def fillna (d : ℚ) : NpVal → NpVal
  | .nan => .num d
  | v => v

/-- Multiplication of a float64 value by a finite scalar
(`daily_solar_kwh * solar_scale`): `0 * ±inf` is NaN, NaN propagates. -/
def npScale (c : ℚ) : NpVal → NpVal
  | .num q => .num (c * q)
  | .posInf => if c = 0 then .nan else if 0 < c then .posInf else .negInf
  | .negInf => if c = 0 then .nan else if 0 < c then .negInf else .posInf
  | .nan => .nan

/-- Float64 addition: NaN propagates, `inf + (-inf)` is NaN. -/
def npAdd : NpVal → NpVal → NpVal
  | .nan, _ => .nan
  | .num _, .nan => .nan
  | .posInf, .nan => .nan
  | .negInf, .nan => .nan
  | .num a, .num b => .num (a + b)
  | .num _, .posInf => .posInf
  | .num _, .negInf => .negInf
  | .posInf, .num _ => .posInf
  | .posInf, .posInf => .posInf
  | .posInf, .negInf => .nan
  | .negInf, .num _ => .negInf
  | .negInf, .negInf => .negInf
  | .negInf, .posInf => .nan

/-- `Series.mean()`: the arithmetic mean of the column. -/
def seriesMean (xs : List ℚ) : ℚ := xs.sum / xs.length

/-- Line 424/425: `(column / column.mean()).fillna(1.0)`. -/
def scaleSeries (xs : List ℚ) : List NpVal :=
  xs.map (fun x => fillna 1 (npDiv x (seriesMean xs)))

/-- Line 428: `daily_gen_series = daily_solar_kwh * solar_scale +
daily_wind_kwh * wind_scale`, with the two daily yields computed from
the horizon means (lines 394-395 and 404-407). -/
def dailyGenSeries (solar_kwh_m2 wind_m_s_avg : List ℚ)
    (system_size_kw area_per_kw pr rotor_diam_m cp wind_pr turbine_kw : ℚ) : List NpVal :=
  let dailySolar := daily_solar_kwh (seriesMean solar_kwh_m2) system_size_kw area_per_kw pr
  let dailyWind := daily_wind_kwh rotor_diam_m cp (seriesMean wind_m_s_avg) wind_pr turbine_kw
  List.zipWith npAdd ((scaleSeries solar_kwh_m2).map (npScale dailySolar))
    ((scaleSeries wind_m_s_avg).map (npScale dailyWind))

/-! ## Unfolding equations for the battery step -/

theorem batteryStep_gen (cap load e soc gen : ℚ) :
    (batteryStep cap load e soc gen).gen = gen := rfl

theorem batteryStep_direct_served (cap load e soc gen : ℚ) :
    (batteryStep cap load e soc gen).direct_served = min gen load := rfl

theorem batteryStep_remaining_load (cap load e soc gen : ℚ) :
    (batteryStep cap load e soc gen).remaining_load = load - min gen load := rfl

theorem batteryStep_charge_possible (cap load e soc gen : ℚ) :
    (batteryStep cap load e soc gen).charge_possible =
      min ((gen - min gen load) * e) (cap - soc) := rfl

theorem batteryStep_soc (cap load e soc gen : ℚ) :
    (batteryStep cap load e soc gen).soc =
      soc + min ((gen - min gen load) * e) (cap - soc) -
        min (soc + min ((gen - min gen load) * e) (cap - soc)) ((load - min gen load) / e) := rfl

theorem batteryStep_served_from_batt (cap load e soc gen : ℚ) :
    (batteryStep cap load e soc gen).served_from_batt =
      min (soc + min ((gen - min gen load) * e) (cap - soc)) ((load - min gen load) / e) * e :=
  rfl

theorem batteryStep_grid_import (cap load e soc gen : ℚ) :
    (batteryStep cap load e soc gen).grid_import =
      max 0 ((load - min gen load) -
        min (soc + min ((gen - min gen load) * e) (cap - soc)) ((load - min gen load) / e) * e) :=
  rfl

theorem batteryStep_grid_export (cap load e soc gen : ℚ) :
    (batteryStep cap load e soc gen).grid_export =
      max 0 ((gen - min gen load) -
        min ((gen - min gen load) * e) (cap - soc) / e) := rfl

/-! ## Battery state bounds -/

/-- After one step from an in-range state of charge, the state of
charge stays in `[0, battery_capacity_kwh]`. -/
theorem batteryStep_soc_bounds (cap load e soc gen : ℚ)
    (hload : 0 ≤ load) (hgen : 0 ≤ gen) (he : 0 ≤ e)
    (h0 : 0 ≤ soc) (h1 : soc ≤ cap) :
    0 ≤ (batteryStep cap load e soc gen).soc ∧ (batteryStep cap load e soc gen).soc ≤ cap := by
  rw [batteryStep_soc]
  have hds1 : min gen load ≤ gen := min_le_left _ _
  have hds2 : min gen load ≤ load := min_le_right _ _
  have hcp_le : min ((gen - min gen load) * e) (cap - soc) ≤ cap - soc := min_le_right _ _
  have hcp0 : 0 ≤ min ((gen - min gen load) * e) (cap - soc) :=
    le_min (mul_nonneg (by linarith) he) (by linarith)
  have hdp_le :
      min (soc + min ((gen - min gen load) * e) (cap - soc)) ((load - min gen load) / e) ≤
        soc + min ((gen - min gen load) * e) (cap - soc) := min_le_left _ _
  have hdp0 :
      0 ≤ min (soc + min ((gen - min gen load) * e) (cap - soc)) ((load - min gen load) / e) :=
    le_min (by linarith) (div_nonneg (by linarith) he)
  constructor <;> linarith

/-- The state-of-charge invariant propagated along the loop from any
in-range starting charge. -/
theorem simulateFrom_soc_invariant (cap load e : ℚ) (hload : 0 ≤ load) (he : 0 ≤ e) :
    ∀ (gens : List ℚ) (soc : ℚ), 0 ≤ soc → soc ≤ cap → (∀ g ∈ gens, 0 ≤ g) →
      ∀ d ∈ simulateFrom cap load e soc gens, 0 ≤ d.soc ∧ d.soc ≤ cap := by
  intro gens
  induction gens with
  | nil => intro soc _ _ _ d hd; simp [simulateFrom] at hd
  | cons g rest ih =>
    intro soc h0 h1 hg d hd
    have hgg : 0 ≤ g := hg g (by simp)
    have hb := batteryStep_soc_bounds cap load e soc g hload hgg he h0 h1
    simp only [simulateFrom] at hd
    rcases List.mem_cons.mp hd with h | h
    · subst h; exact hb
    · exact ih _ hb.1 hb.2 (fun x hx => hg x (by simp [hx])) d h

/-- C1 (counterexample): the source initializes `soc = 0.0` (line 430),
not `battery_capacity_kwh`, so with capacity 10, load 12, `√eff = 1` and
generation series `[0]` the first day's transition is not the transition
from incoming charge 10: starting full would discharge 10 kWh and import
only 2, while the code discharges nothing and imports the full 12. -/
theorem ledger_starts_full_counterexample :
    ¬ ((simulate 10 12 1 [0]).head? = some (batteryStep 10 12 1 10 0)) := by
  norm_num [simulate, simulateFrom, socInit, batteryStep, min_def, max_def]

/-- C1 (amended): at the start of the Battery Ledger fold the state of
charge is initialized to `0` (the battery starts empty), so for every
input series the first day's transition is computed with incoming charge
`0`, not the configured capacity. -/
theorem ledger_initial_charge_zero (cap load e g : ℚ) (rest : List ℚ) :
    (simulate cap load e (g :: rest)).head? = some (batteryStep cap load e 0 g) := rfl

/-- C2: for every generation series of non-negative daily generation,
non-negative daily load, `battery_capacity_kwh ≥ 0` and round-trip
efficiency in `(0, 1]` (with `effSqrt` the value of
`battery_round_trip_eff ** 0.5`), the state of charge satisfies
`0 ≤ soc ≤ battery_capacity_kwh` after every day's transition. -/
theorem ledger_soc_within_bounds (battery_capacity_kwh daily_load_kwh eff effSqrt : ℚ)
    (gens : List ℚ)
    (hcap : 0 ≤ battery_capacity_kwh) (hload : 0 ≤ daily_load_kwh)
    (heffPos : 0 < eff) (heffLe : eff ≤ 1)
    (hsqrt : effSqrt * effSqrt = eff) (hsqrtNonneg : 0 ≤ effSqrt)
    (hgens : ∀ g ∈ gens, 0 ≤ g) :
    ∀ d ∈ simulate battery_capacity_kwh daily_load_kwh effSqrt gens,
      0 ≤ d.soc ∧ d.soc ≤ battery_capacity_kwh :=
  simulateFrom_soc_invariant _ _ _ hload hsqrtNonneg gens socInit le_rfl hcap hgens

/-- C2 (witness): capacity 10, load 12, efficiency 0.81 (`√eff = 0.9`),
series `[5]`: the single day's post-step charge is within `[0, 10]`. -/
theorem ledger_soc_within_bounds_witness :
    0 ≤ (batteryStep 10 12 (9/10) 0 5).soc ∧ (batteryStep 10 12 (9/10) 0 5).soc ≤ 10 :=
  ledger_soc_within_bounds 10 12 (81/100) (9/10) [5] (by norm_num) (by norm_num)
    (by norm_num) (by norm_num) (by norm_num) (by norm_num) (by simp)
    (batteryStep 10 12 (9/10) 0 5) (by simp [simulate, simulateFrom, socInit])

/-- A per-step property that holds for arbitrary incoming charge holds
for every emitted day of the loop. -/
theorem simulateFrom_forall (cap load e : ℚ) (P : DayOut → Prop)
    (hstep : ∀ soc gen, 0 ≤ gen → P (batteryStep cap load e soc gen)) :
    ∀ (gens : List ℚ) (soc : ℚ), (∀ g ∈ gens, 0 ≤ g) →
      ∀ d ∈ simulateFrom cap load e soc gens, P d := by
  intro gens
  induction gens with
  | nil => intro soc _ d hd; simp [simulateFrom] at hd
  | cons g rest ih =>
    intro soc hg d hd
    simp only [simulateFrom] at hd
    rcases List.mem_cons.mp hd with h | h
    · subst h; exact hstep soc g (hg g (by simp))
    · exact ih _ (fun x hx => hg x (by simp [hx])) d h

/-- The square root of a positive efficiency is positive. -/
theorem effSqrt_pos (eff effSqrt : ℚ) (heffPos : 0 < eff)
    (hsqrt : effSqrt * effSqrt = eff) (hsqrtNonneg : 0 ≤ effSqrt) : 0 < effSqrt := by
  rcases hsqrtNonneg.lt_or_eq with h | h
  · exact h
  · exfalso
    have h0 : eff = 0 := by rw [← hsqrt, ← h]; ring
    rw [h0] at heffPos
    exact lt_irrefl 0 heffPos

/-- One step conserves energy on both the load and the generation side,
for any incoming state of charge. -/
theorem batteryStep_conservation (cap load e soc gen : ℚ)
    (hload : 0 ≤ load) (hgen : 0 ≤ gen) (he : 0 < e) :
    (batteryStep cap load e soc gen).direct_served +
        (batteryStep cap load e soc gen).served_from_batt +
        (batteryStep cap load e soc gen).grid_import = load ∧
    (batteryStep cap load e soc gen).direct_served +
        (batteryStep cap load e soc gen).charge_possible / e +
        (batteryStep cap load e soc gen).grid_export = (batteryStep cap load e soc gen).gen := by
  rw [batteryStep_direct_served, batteryStep_served_from_batt, batteryStep_grid_import,
    batteryStep_charge_possible, batteryStep_grid_export, batteryStep_gen]
  set ds := min gen load with hds
  set cp := min ((gen - ds) * e) (cap - soc) with hcp
  set dp := min (soc + cp) ((load - ds) / e) with hdp
  have hsfb_le : dp * e ≤ load - ds := by
    have h1 : dp ≤ (load - ds) / e := min_le_right _ _
    calc dp * e ≤ ((load - ds) / e) * e := mul_le_mul_of_nonneg_right h1 he.le
      _ = load - ds := div_mul_cancel₀ _ (ne_of_gt he)
  have hcp_div : cp / e ≤ gen - ds := by
    have h1 : cp ≤ (gen - ds) * e := min_le_left _ _
    exact (div_le_iff₀ he).mpr h1
  have him : max 0 ((load - ds) - dp * e) = (load - ds) - dp * e :=
    max_eq_right (by linarith)
  have hex : max 0 ((gen - ds) - cp / e) = (gen - ds) - cp / e :=
    max_eq_right (by linarith)
  rw [him, hex]
  have hds_le : ds ≤ load := min_le_right _ _
  constructor <;> ring

/-- C3: on every day of the simulation with non-negative generation and
load and round-trip efficiency in `(0, 1]`, the emitted quantities
conserve energy exactly on both sides:
`direct_served + served_from_battery + grid_import = load` and
`direct_served + charge_possible / √eff + grid_export = gen`. -/
theorem ledger_energy_conservation (battery_capacity_kwh daily_load_kwh eff effSqrt : ℚ)
    (gens : List ℚ)
    (hload : 0 ≤ daily_load_kwh)
    (heffPos : 0 < eff) (heffLe : eff ≤ 1)
    (hsqrt : effSqrt * effSqrt = eff) (hsqrtNonneg : 0 ≤ effSqrt)
    (hgens : ∀ g ∈ gens, 0 ≤ g) :
    ∀ d ∈ simulate battery_capacity_kwh daily_load_kwh effSqrt gens,
      d.direct_served + d.served_from_batt + d.grid_import = daily_load_kwh ∧
      d.direct_served + d.charge_possible / effSqrt + d.grid_export = d.gen := by
  have he : 0 < effSqrt := effSqrt_pos eff effSqrt heffPos hsqrt hsqrtNonneg
  exact simulateFrom_forall _ _ _ _
    (fun soc gen hgen => batteryStep_conservation _ _ _ soc gen hload hgen he)
    gens socInit hgens

/-- C3 (witness): capacity 10, load 12, efficiency 0.81 (`√eff = 0.9`),
series `[5]`: both balances hold on the single day. -/
theorem ledger_energy_conservation_witness :
    (batteryStep 10 12 (9/10) 0 5).direct_served +
        (batteryStep 10 12 (9/10) 0 5).served_from_batt +
        (batteryStep 10 12 (9/10) 0 5).grid_import = 12 ∧
    (batteryStep 10 12 (9/10) 0 5).direct_served +
        (batteryStep 10 12 (9/10) 0 5).charge_possible / (9/10) +
        (batteryStep 10 12 (9/10) 0 5).grid_export = (batteryStep 10 12 (9/10) 0 5).gen :=
  ledger_energy_conservation 10 12 (81/100) (9/10) [5] (by norm_num) (by norm_num)
    (by norm_num) (by norm_num) (by norm_num) (by simp) (batteryStep 10 12 (9/10) 0 5)
    (by simp [simulate, simulateFrom, socInit])

/-- Unfolding equation for the per-step division record. -/
theorem batteryStepDivisions_eq (cap load e soc gen : ℚ) :
    batteryStepDivisions cap load e soc gen =
      [(load - min gen load, e),
       (min ((gen - min gen load) * e) (cap - soc), e)] := rfl

/-- Every division executed anywhere in the loop has the same divisor:
the square root of the round-trip efficiency. -/
theorem simulateDivisionsFrom_divisor_eq (cap load e : ℚ) :
    ∀ (gens : List ℚ) (soc : ℚ), ∀ p ∈ simulateDivisionsFrom cap load e soc gens,
      p.2 = e := by
  intro gens
  induction gens with
  | nil => intro soc p hp; simp [simulateDivisionsFrom] at hp
  | cons g rest ih =>
    intro soc p hp
    simp only [simulateDivisionsFrom, batteryStepDivisions_eq, List.mem_append,
      List.mem_cons, List.not_mem_nil, or_false] at hp
    rcases hp with (h | h) | h
    · rw [h]
    · rw [h]
    · exact ih _ p h

/-- With a zero efficiency square root, one step from an in-range state
of charge serves nothing from the battery and charges nothing. -/
theorem batteryStep_zero_eff (cap load soc gen : ℚ)
    (hgen : 0 ≤ gen) (h0 : 0 ≤ soc) (h1 : soc ≤ cap) :
    (batteryStep cap load 0 soc gen).served_from_batt = 0 ∧
    (batteryStep cap load 0 soc gen).charge_possible = 0 := by
  rw [batteryStep_served_from_batt, batteryStep_charge_possible]
  have hds1 : min gen load ≤ gen := min_le_left _ _
  constructor
  · exact mul_zero _
  · rw [mul_zero]
    exact min_eq_left (by linarith)

/-- The zero-efficiency degeneracy propagated along the whole loop. -/
theorem simulateFrom_zero_eff (cap load : ℚ) (hload : 0 ≤ load) :
    ∀ (gens : List ℚ) (soc : ℚ), 0 ≤ soc → soc ≤ cap → (∀ g ∈ gens, 0 ≤ g) →
      ∀ d ∈ simulateFrom cap load 0 soc gens,
        d.served_from_batt = 0 ∧ d.charge_possible = 0 := by
  intro gens
  induction gens with
  | nil => intro soc _ _ _ d hd; simp [simulateFrom] at hd
  | cons g rest ih =>
    intro soc h0 h1 hg d hd
    have hgg : 0 ≤ g := hg g (by simp)
    have hb := batteryStep_soc_bounds cap load 0 soc g hload hgg le_rfl h0 h1
    simp only [simulateFrom] at hd
    rcases List.mem_cons.mp hd with h | h
    · subst h; exact batteryStep_zero_eff cap load soc g hgg h0 h1
    · exact ih _ hb.1 hb.2 (fun x hx => hg x (by simp [hx])) d h

/-- C4 (counterexample): with `round_trip_eff = 0` (so
`charge_eff = discharge_eff = 0`), capacity 10, load 12 and generation
series `[5]`, the loop body executes the division
`remaining_load / discharge_eff = 7 / 0`: a division whose divisor is
`0` does occur, so the claim that no division by zero occurs on any day
is false. -/
theorem ledger_zero_eff_division_counterexample :
    ((7:ℚ), (0:ℚ)) ∈ simulateDivisions 10 12 0 [5] := by
  norm_num [simulateDivisions, simulateDivisionsFrom, batteryStepDivisions_eq, socInit,
    min_def]

/-- C4 (amended): if `round_trip_eff = 0` then `√round_trip_eff = 0`
forces `served_from_battery = 0` and `charge_possible = 0` on every day
(for any non-negative generation series and positive load, with no
special-case branch); however the loop does execute its two division
expressions with divisor `√round_trip_eff = 0` on every day, so
"no division by zero occurs" does not hold (the embedding's division is
total, with `x / 0 = 0`; in the source the same expressions are NumPy
float divisions by zero). -/
theorem ledger_zero_eff_degenerate (battery_capacity_kwh daily_load_kwh effSqrt : ℚ)
    (gens : List ℚ)
    (hcap : 0 ≤ battery_capacity_kwh) (hload : 0 < daily_load_kwh)
    (hsqrt : effSqrt * effSqrt = 0)
    (hgens : ∀ g ∈ gens, 0 ≤ g) :
    (∀ d ∈ simulate battery_capacity_kwh daily_load_kwh effSqrt gens,
      d.served_from_batt = 0 ∧ d.charge_possible = 0) ∧
    (∀ p ∈ simulateDivisions battery_capacity_kwh daily_load_kwh effSqrt gens, p.2 = 0) := by
  have he : effSqrt = 0 := mul_self_eq_zero.mp hsqrt
  subst he
  constructor
  · exact simulateFrom_zero_eff _ _ hload.le gens socInit le_rfl hcap hgens
  · intro p hp
    exact simulateDivisionsFrom_divisor_eq _ _ _ gens socInit p hp

/-- C4 (witness): capacity 10, load 12, `√eff = 0`, series `[5]`: the
single day serves nothing from the battery and charges nothing. -/
theorem ledger_zero_eff_degenerate_witness :
    (batteryStep 10 12 0 0 5).served_from_batt = 0 ∧
      (batteryStep 10 12 0 0 5).charge_possible = 0 :=
  (ledger_zero_eff_degenerate 10 12 0 [5] (by norm_num) (by norm_num) (by norm_num)
    (by simp)).1 (batteryStep 10 12 0 0 5) (by simp [simulate, simulateFrom, socInit])

/-- With zero capacity and zero incoming charge, one step charges
nothing, serves nothing from the battery, and imports exactly the
shortfall; the state of charge stays `0`. -/
theorem batteryStep_zero_cap (load e gen : ℚ)
    (hload : 0 ≤ load) (hgen : 0 ≤ gen) (he : 0 < e) :
    (batteryStep 0 load e 0 gen).charge_possible = 0 ∧
    (batteryStep 0 load e 0 gen).served_from_batt = 0 ∧
    (batteryStep 0 load e 0 gen).grid_import =
      load - (batteryStep 0 load e 0 gen).direct_served ∧
    (batteryStep 0 load e 0 gen).soc = 0 := by
  rw [batteryStep_charge_possible, batteryStep_served_from_batt, batteryStep_grid_import,
    batteryStep_direct_served, batteryStep_soc]
  have hds1 : min gen load ≤ gen := min_le_left _ _
  have hds2 : min gen load ≤ load := min_le_right _ _
  have hcp0 : 0 ≤ (gen - min gen load) * e := mul_nonneg (by linarith) he.le
  have hrl0 : 0 ≤ (load - min gen load) / e := div_nonneg (by linarith) he.le
  have hmax : max 0 (load - min gen load) = load - min gen load := max_eq_right (by linarith)
  simp only [sub_zero, min_eq_right hcp0, add_zero, min_eq_left hrl0, zero_mul, mul_zero,
    hmax, and_self, sub_self, eq_self_iff_true, true_and, and_true]

/-- The zero-capacity degeneracy propagated along the whole loop. -/
theorem simulateFrom_zero_cap (load e : ℚ) (hload : 0 ≤ load) (he : 0 < e) :
    ∀ (gens : List ℚ), (∀ g ∈ gens, 0 ≤ g) →
      ∀ d ∈ simulateFrom 0 load e 0 gens,
        d.charge_possible = 0 ∧ d.served_from_batt = 0 ∧
          d.grid_import = load - d.direct_served := by
  intro gens
  induction gens with
  | nil => intro _ d hd; simp [simulateFrom] at hd
  | cons g rest ih =>
    intro hg d hd
    have hgg : 0 ≤ g := hg g (by simp)
    have hb := batteryStep_zero_cap load e g hload hgg he
    simp only [simulateFrom] at hd
    rcases List.mem_cons.mp hd with h | h
    · subst h; exact ⟨hb.1, hb.2.1, hb.2.2.1⟩
    · rw [hb.2.2.2] at h
      exact ih (fun x hx => hg x (by simp [hx])) d h

/-- C5: if `battery_capacity_kwh = 0` (with round-trip efficiency in
`(0, 1]`; the charge starts at `0`, which here equals the capacity) then
on every day `charge_possible = 0`, `served_from_battery = 0`, and
`grid_import` equals the day's shortfall `load - direct_served`; every
division executed by the loop has the nonzero divisor `√eff`. -/
theorem ledger_zero_capacity (daily_load_kwh eff effSqrt : ℚ) (gens : List ℚ)
    (hload : 0 ≤ daily_load_kwh)
    (heffPos : 0 < eff) (heffLe : eff ≤ 1)
    (hsqrt : effSqrt * effSqrt = eff) (hsqrtNonneg : 0 ≤ effSqrt)
    (hgens : ∀ g ∈ gens, 0 ≤ g) :
    (∀ d ∈ simulate 0 daily_load_kwh effSqrt gens,
      d.charge_possible = 0 ∧ d.served_from_batt = 0 ∧
        d.grid_import = daily_load_kwh - d.direct_served) ∧
    (∀ p ∈ simulateDivisions 0 daily_load_kwh effSqrt gens, p.2 ≠ 0) := by
  have he : 0 < effSqrt := effSqrt_pos eff effSqrt heffPos hsqrt hsqrtNonneg
  constructor
  · exact simulateFrom_zero_cap _ _ hload he gens hgens
  · intro p hp
    rw [simulateDivisionsFrom_divisor_eq _ _ _ gens socInit p hp]
    exact ne_of_gt he

/-- C5 (witness): load 12, efficiency 0.81 (`√eff = 0.9`), capacity 0,
series `[5]`: the single day charges nothing, serves nothing from the
battery, and imports the shortfall. -/
theorem ledger_zero_capacity_witness :
    (batteryStep 0 12 (9/10) 0 5).charge_possible = 0 ∧
    (batteryStep 0 12 (9/10) 0 5).served_from_batt = 0 ∧
    (batteryStep 0 12 (9/10) 0 5).grid_import =
      12 - (batteryStep 0 12 (9/10) 0 5).direct_served :=
  (ledger_zero_capacity 12 (81/100) (9/10) [5] (by norm_num) (by norm_num) (by norm_num)
    (by norm_num) (by norm_num) (by simp)).1 (batteryStep 0 12 (9/10) 0 5)
    (by simp [simulate, simulateFrom, socInit])

/-- C6: the Recommendation Selector is total (a function into the three
tags, so it returns exactly one tag for every summary) and applies its
conditions in first-match order: `avg_solar_mj > 250` gives HighSolar
regardless of the wind value; otherwise `avg_wind_max > 6` gives
StrongWind; otherwise HybridStorage. -/
theorem suggestion_total_first_match (avg_solar_mj avg_wind_max : ℚ) :
    (avg_solar_mj > 250 → suggestion avg_solar_mj avg_wind_max = .highSolar) ∧
    (¬ avg_solar_mj > 250 → avg_wind_max > 6 →
      suggestion avg_solar_mj avg_wind_max = .strongWind) ∧
    (¬ avg_solar_mj > 250 → ¬ avg_wind_max > 6 →
      suggestion avg_solar_mj avg_wind_max = .hybridStorage) := by
  refine ⟨fun h => ?_, fun h1 h2 => ?_, fun h1 h2 => ?_⟩
  · simp [suggestion, h]
  · simp [suggestion, h1, h2]
  · simp [suggestion, h1, h2]

/-- C6 (witness): at `avg_solar = 260` the tag is HighSolar despite a
strong wind value; at `(100, 7)` it is StrongWind; at `(100, 5)` it is
HybridStorage. -/
theorem suggestion_total_first_match_witness :
    suggestion 260 100 = .highSolar ∧ suggestion 100 7 = .strongWind ∧
      suggestion 100 5 = .hybridStorage :=
  ⟨(suggestion_total_first_match 260 100).1 (by norm_num),
   (suggestion_total_first_match 100 7).2.1 (by norm_num) (by norm_num),
   (suggestion_total_first_match 100 5).2.2 (by norm_num) (by norm_num)⟩

/-- C7: for every non-negative average wind speed and valid
configuration, the wind yield equals
`0.5 × 1.225 × rotor_area × Cp × wind³ × availability` capped at
`turbine_kw × 1000` W, converted as `power × 24 / 1000` to kWh, and is
non-negative (and, being rational, finite) and at most
`turbine_kw × 24` kWh per day. -/
theorem wind_yield_formula_and_bounds (rotor_diam_m cp wind_pr turbine_kw avg_wind : ℚ)
    (hw : 0 ≤ avg_wind) (hcp0 : 0 < cp) (hcp1 : cp < 1)
    (hpr0 : 0 < wind_pr) (hpr1 : wind_pr < 1)
    (hrd : 0 < rotor_diam_m) (htk : 0 < turbine_kw) :
    daily_wind_kwh rotor_diam_m cp avg_wind wind_pr turbine_kw =
      min (1/2 * (1225/1000) * (31416/10000 * (rotor_diam_m / 2)^2) * cp * avg_wind^3 * wind_pr)
        (turbine_kw * 1000) * 24 / 1000 ∧
    0 ≤ daily_wind_kwh rotor_diam_m cp avg_wind wind_pr turbine_kw ∧
    daily_wind_kwh rotor_diam_m cp avg_wind wind_pr turbine_kw ≤ turbine_kw * 24 := by
  have hraw : 0 ≤ wind_power_raw_w rotor_diam_m cp avg_wind wind_pr := by
    unfold wind_power_raw_w rotor_area air_density
    positivity
  have hcap' : (0:ℚ) ≤ turbine_kw * 1000 := by positivity
  have hmin0 : 0 ≤ wind_power_w rotor_diam_m cp avg_wind wind_pr turbine_kw :=
    le_min hraw hcap'
  have hminle : wind_power_w rotor_diam_m cp avg_wind wind_pr turbine_kw ≤ turbine_kw * 1000 :=
    min_le_right _ _
  refine ⟨rfl, ?_, ?_⟩
  · exact div_nonneg (mul_nonneg hmin0 (by norm_num)) (by norm_num)
  · unfold daily_wind_kwh
    rw [div_le_iff₀ (by norm_num : (0:ℚ) < 1000)]
    linarith

/-- C7 (witness): rotor 2.5 m, Cp 0.35, availability 0.5, 2 kW turbine,
average wind 3 m/s: the yield matches the capped formula and is within
`[0, 48]` kWh. -/
theorem wind_yield_formula_and_bounds_witness :
    daily_wind_kwh (5/2) (35/100) 3 (1/2) 2 =
      min (1/2 * (1225/1000) * (31416/10000 * ((5:ℚ)/2 / 2)^2) * (35/100) * 3^3 * (1/2))
        (2 * 1000) * 24 / 1000 ∧
    0 ≤ daily_wind_kwh (5/2) (35/100) 3 (1/2) 2 ∧
    daily_wind_kwh (5/2) (35/100) 3 (1/2) 2 ≤ 2 * 24 :=
  wind_yield_formula_and_bounds (5/2) (35/100) (1/2) 2 3 (by norm_num) (by norm_num)
    (by norm_num) (by norm_num) (by norm_num) (by norm_num) (by norm_num)

/-- C8: for non-negative average solar radiation and average max wind
speed, `solar_score = min(avg_solar / 300 × 100, 100)`,
`wind_score = min(avg_wind_max / 12 × 100, 100)`, the composite score is
`0.6 × solar_score + 0.4 × wind_score`, and all three lie in `[0, 100]`. -/
theorem scores_formula_and_bounds (avg_solar_mj avg_wind_max : ℚ)
    (hs : 0 ≤ avg_solar_mj) (hw : 0 ≤ avg_wind_max) :
    solar_score avg_solar_mj = min (avg_solar_mj / 300 * 100) 100 ∧
    wind_score avg_wind_max = min (avg_wind_max / 12 * 100) 100 ∧
    eco_watt_score avg_solar_mj avg_wind_max =
      6/10 * solar_score avg_solar_mj + 4/10 * wind_score avg_wind_max ∧
    0 ≤ solar_score avg_solar_mj ∧ solar_score avg_solar_mj ≤ 100 ∧
    0 ≤ wind_score avg_wind_max ∧ wind_score avg_wind_max ≤ 100 ∧
    0 ≤ eco_watt_score avg_solar_mj avg_wind_max ∧
      eco_watt_score avg_solar_mj avg_wind_max ≤ 100 := by
  have h1 : 0 ≤ solar_score avg_solar_mj := le_min (by positivity) (by norm_num)
  have h2 : solar_score avg_solar_mj ≤ 100 := min_le_right _ _
  have h3 : 0 ≤ wind_score avg_wind_max := le_min (by positivity) (by norm_num)
  have h4 : wind_score avg_wind_max ≤ 100 := min_le_right _ _
  refine ⟨rfl, rfl, rfl, h1, h2, h3, h4, ?_, ?_⟩ <;> unfold eco_watt_score <;> linarith

/-- C8 (witness): at averages `(400, 5)` the formulas and the `[0, 100]`
bounds hold concretely. -/
theorem scores_formula_and_bounds_witness :
    solar_score 400 = min ((400:ℚ) / 300 * 100) 100 ∧
    wind_score 5 = min ((5:ℚ) / 12 * 100) 100 ∧
    eco_watt_score 400 5 = 6/10 * solar_score 400 + 4/10 * wind_score 5 ∧
    0 ≤ solar_score 400 ∧ solar_score 400 ≤ 100 ∧
    0 ≤ wind_score 5 ∧ wind_score 5 ≤ 100 ∧
    0 ≤ eco_watt_score 400 5 ∧ eco_watt_score 400 5 ≤ 100 :=
  scores_formula_and_bounds 400 5 (by norm_num) (by norm_num)

/-- C9: a response lacking a date array (no daily block, or no `time`
key) fails before any derived output; a response with mismatched array
lengths fails before any derived output; a response whose optional
arrays are merely absent does not fail: zeros are substituted for the
radiation and wind arrays, missing values for the temperature array, and
the run completes. -/
theorem pipeline_validation (resp : ApiResponse) :
    (resp.daily = none → analyzeFrame resp = .error .missingDaily) ∧
    (∀ db, resp.daily = some db → db.time = none →
      analyzeFrame resp = .error .missingDaily) ∧
    (∀ db t s, resp.daily = some db → db.time = some t →
      db.shortwave_radiation_sum = some s → s.length ≠ t.length →
      analyzeFrame resp = .error .lengthMismatch) ∧
    (∀ db t w, resp.daily = some db → db.time = some t →
      db.wind_speed_10m_max = some w → w.length ≠ t.length →
      analyzeFrame resp = .error .lengthMismatch) ∧
    (∀ db t, resp.daily = some db → db.time = some t →
      db.shortwave_radiation_sum = none → db.wind_speed_10m_max = none →
      db.temperature_2m_max = none →
      analyzeFrame resp = .ok (deriveColumns
        ⟨t, List.replicate t.length 0, List.replicate t.length 0,
          List.replicate t.length none⟩)) := by
  refine ⟨?_, ?_, ?_, ?_, ?_⟩
  · intro h
    simp [analyzeFrame, buildFrame, Except.map, h]
  · intro db hdb ht
    simp [analyzeFrame, buildFrame, Except.map, hdb, ht]
  · intro db t s hdb ht hs hlen
    simp [analyzeFrame, buildFrame, Except.map, hdb, ht, hs, hlen]
  · intro db t w hdb ht hw hlen
    simp [analyzeFrame, buildFrame, Except.map, hdb, ht, hw, hlen]
  · intro db t hdb ht hs hw htp
    simp [analyzeFrame, buildFrame, deriveColumns, Except.map, hdb, ht, hs, hw, htp]

/-- C9 (witness): concrete responses exercising each branch: missing
daily block, missing date array, short radiation array, short wind
array, and a date-only response that completes with substituted
columns. -/
theorem pipeline_validation_witness :
    analyzeFrame ⟨none⟩ = .error .missingDaily ∧
    analyzeFrame ⟨some ⟨none, none, none, none⟩⟩ = .error .missingDaily ∧
    analyzeFrame ⟨some ⟨some [0, 1], some [3], none, none⟩⟩ = .error .lengthMismatch ∧
    analyzeFrame ⟨some ⟨some [0, 1], none, some [3], none⟩⟩ = .error .lengthMismatch ∧
    analyzeFrame ⟨some ⟨some [0, 1], none, none, none⟩⟩ =
      .ok (deriveColumns ⟨[0, 1], List.replicate ([0, 1] : List Nat).length 0,
        List.replicate ([0, 1] : List Nat).length 0,
        List.replicate ([0, 1] : List Nat).length none⟩) :=
  ⟨(pipeline_validation ⟨none⟩).1 rfl,
   (pipeline_validation _).2.1 _ rfl rfl,
   (pipeline_validation _).2.2.1 _ _ _ rfl rfl rfl (by norm_num),
   (pipeline_validation _).2.2.2.1 _ _ _ rfl rfl rfl (by norm_num),
   (pipeline_validation _).2.2.2.2 _ _ rfl rfl rfl rfl rfl⟩

/-- A list of non-negative rationals with zero sum is all zeros. -/
theorem sum_nonneg_eq_zero :
    ∀ (xs : List ℚ), (∀ x ∈ xs, 0 ≤ x) → xs.sum = 0 → ∀ x ∈ xs, x = 0 := by
  intro xs
  induction xs with
  | nil => intro _ _ x hx'; simp at hx'
  | cons a rest ih =>
    intro hx hs x hx'
    have ha : 0 ≤ a := hx a (by simp)
    have hr : 0 ≤ rest.sum := List.sum_nonneg (fun y hy => hx y (by simp [hy]))
    rw [List.sum_cons] at hs
    have ha0 : a = 0 := by linarith
    have hr0 : rest.sum = 0 := by linarith
    rcases List.mem_cons.mp hx' with h | h
    · rw [h, ha0]
    · exact ih (fun y hy => hx y (by simp [hy])) hr0 x h

/-- A non-negative column whose mean is zero is all zeros. -/
theorem mean_zero_all_zero (xs : List ℚ) (hx : ∀ x ∈ xs, 0 ≤ x)
    (hm : seriesMean xs = 0) : ∀ x ∈ xs, x = 0 := by
  cases xs with
  | nil => intro x hx'; simp at hx'
  | cons a rest =>
    have hlen : (((a :: rest).length : ℚ)) ≠ 0 := Nat.cast_ne_zero.mpr (by simp)
    unfold seriesMean at hm
    rcases div_eq_zero_iff.mp hm with h | h
    · exact sum_nonneg_eq_zero _ hx h
    · exact absurd h hlen

/-- Every entry of the fillna-patched scale series of a non-negative
column is a finite value: either the mean is nonzero and the division is
exact, or the mean is zero, the entry is zero, `0/0` is NaN and fillna
turns it into `1.0`. -/
theorem scaleSeries_isNum (xs : List ℚ) (hx : ∀ x ∈ xs, 0 ≤ x) :
    ∀ v ∈ scaleSeries xs, ∃ q : ℚ, v = .num q := by
  intro v hv
  rcases List.mem_map.mp hv with ⟨x, hxmem, rfl⟩
  by_cases hm : seriesMean xs = 0
  · have hx0 : x = 0 := mean_zero_all_zero xs hx hm x hxmem
    exact ⟨1, by simp [npDiv, fillna, hx0, hm]⟩
  · exact ⟨x / seriesMean xs, by simp [npDiv, fillna, hm]⟩

/-- Scaling the scale series of a non-negative column by a finite
scalar yields only finite values. -/
theorem scaled_scaleSeries_num (xs : List ℚ) (c : ℚ) (hx : ∀ x ∈ xs, 0 ≤ x) :
    ∀ v ∈ (scaleSeries xs).map (npScale c), ∃ q : ℚ, v = .num q := by
  intro v hv
  rcases List.mem_map.mp hv with ⟨w, hw, rfl⟩
  obtain ⟨q, hq⟩ := scaleSeries_isNum xs hx w hw
  exact ⟨c * q, by rw [hq]; rfl⟩

/-- Adding two columns of finite values gives only finite values. -/
theorem zipWith_npAdd_num :
    ∀ (as bs : List NpVal),
      (∀ a ∈ as, ∃ q : ℚ, a = .num q) → (∀ b ∈ bs, ∃ q : ℚ, b = .num q) →
      ∀ v ∈ List.zipWith npAdd as bs, ∃ q : ℚ, v = .num q := by
  intro as
  induction as with
  | nil => intro bs _ _ v hv; simp at hv
  | cons a as' ih =>
    intro bs ha hb v hv
    cases bs with
    | nil => simp at hv
    | cons b bs' =>
      simp only [List.zipWith_cons_cons] at hv
      rcases List.mem_cons.mp hv with h | h
      · obtain ⟨qa, hqa⟩ := ha a (by simp)
        obtain ⟨qb, hqb⟩ := hb b (by simp)
        rw [h, hqa, hqb]
        exact ⟨qa + qb, rfl⟩
      · exact ih bs' (fun x hx => ha x (by simp [hx])) (fun x hx => hb x (by simp [hx])) v h

/-- Scaling any scale series of a non-negative column by the scalar `0`
contributes exactly zero on every day. -/
theorem scale_contribution_zero (xs : List ℚ) (c : ℚ) (hx : ∀ x ∈ xs, 0 ≤ x)
    (hc : c = 0) :
    (scaleSeries xs).map (npScale c) = List.replicate xs.length (.num 0) := by
  subst hc
  refine List.eq_replicate_iff.mpr ⟨by simp [scaleSeries], fun b hb => ?_⟩
  rcases List.mem_map.mp hb with ⟨w, hw, rfl⟩
  obtain ⟨q, hq⟩ := scaleSeries_isNum xs hx w hw
  rw [hq]
  simp [npScale]

/-- C10: for non-negative solar and wind columns, the per-day generation
series fed to the Battery Ledger contains no NaN; and when the
horizon-average solar energy (resp. wind speed) is zero, the zero-mean
division yields NaN scale factors that fillna replaces by `1.0`, the
corresponding mean daily yield is zero, and that source contributes
exactly zero generation on every day. -/
theorem gen_series_no_nan_zero_mean (solar_kwh_m2 wind_m_s_avg : List ℚ)
    (system_size_kw area_per_kw pr rotor_diam_m cp wind_pr turbine_kw : ℚ)
    (hs : ∀ x ∈ solar_kwh_m2, 0 ≤ x) (hw : ∀ x ∈ wind_m_s_avg, 0 ≤ x)
    (htkw : 0 ≤ turbine_kw) :
    (∀ v ∈ dailyGenSeries solar_kwh_m2 wind_m_s_avg system_size_kw area_per_kw pr
        rotor_diam_m cp wind_pr turbine_kw, v ≠ .nan) ∧
    (seriesMean solar_kwh_m2 = 0 →
      (scaleSeries solar_kwh_m2).map
          (npScale (daily_solar_kwh (seriesMean solar_kwh_m2) system_size_kw area_per_kw pr)) =
        List.replicate solar_kwh_m2.length (.num 0)) ∧
    (seriesMean wind_m_s_avg = 0 →
      (scaleSeries wind_m_s_avg).map
          (npScale (daily_wind_kwh rotor_diam_m cp (seriesMean wind_m_s_avg) wind_pr
            turbine_kw)) =
        List.replicate wind_m_s_avg.length (.num 0)) := by
  refine ⟨?_, ?_, ?_⟩
  · intro v hv
    obtain ⟨q, hq⟩ := zipWith_npAdd_num _ _
      (scaled_scaleSeries_num solar_kwh_m2 _ hs)
      (scaled_scaleSeries_num wind_m_s_avg _ hw) v hv
    rw [hq]
    simp
  · intro hm
    apply scale_contribution_zero _ _ hs
    rw [hm]
    unfold daily_solar_kwh
    ring
  · intro hm
    apply scale_contribution_zero _ _ hw
    rw [hm]
    have hraw : wind_power_raw_w rotor_diam_m cp 0 wind_pr = 0 := by
      unfold wind_power_raw_w
      ring
    have hcap' : (0:ℚ) ≤ turbine_kw * 1000 := by positivity
    unfold daily_wind_kwh wind_power_w
    rw [hraw, min_eq_left hcap']
    norm_num

/-- C10 (witness): an all-zero solar column next to the wind column
`[2, 4]`: the solar mean is zero and the solar contribution to the
generation series is exactly zero on both days. -/
theorem gen_series_no_nan_zero_mean_witness :
    (scaleSeries [0, 0]).map
        (npScale (daily_solar_kwh (seriesMean [0, 0]) 5 5 (3/4))) =
      List.replicate ([0, 0] : List ℚ).length (.num 0) :=
  (gen_series_no_nan_zero_mean [0, 0] [2, 4] 5 5 (3/4) (5/2) (35/100) (1/2) 2
    (by norm_num) (by norm_num) (by norm_num)).2.1 (by norm_num [seriesMean])

end EcoWatt
